import Mathlib

/-!
Shallow embedding of `flask_nav/elements.py` (the navigation-item data
model of flask-nav): the item hierarchy, the `active` / `get_url`
computations and the `render` dispatch, together with proofs of the
specification's claims about them.

External collaborators (flask's `url_for`, `request.path`, the renderer
registry) are modelled as explicit context records; Python exceptions are
modelled with `Except`.
-/

namespace FlaskNav

/-- Exceptions that the modelled code can raise. -/
inductive Err where
  /-- RuntimeError: request-dependent state accessed outside a request. -/
  | contextError : Err
  /-- BuildError and friends raised by the routing facility (`url_for`). -/
  | routingError (msg : String) : Err
  /-- KeyError from the renderer registry: name not registered. -/
  | configError (name : String) : Err
  /-- NameError: a global name that is not defined in the module. -/
  | nameError (name : String) : Err
  /-- AttributeError: attribute missing on an object. -/
  | attributeError (name : String) : Err
deriving DecidableEq, Repr

/-- The flask request/application context consumed by the elements module:
`url_for` (the host routing facility) and the current request, if any. -/
structure Ctx where
  /-- Flask routing facility `url_for`: endpoint, positional args, keyword args to URL. -/
  url_for : String → List String → List (String × String) → Except Err String
  /-- Holds `some p` when a request with path `p` is current, `none` outside a
  request context. -/
  requestPath : Option String

/-- Accessing `request.path`: raises a context error with no current request. -/
def Ctx.path (ctx : Ctx) : Except Err String :=
  match ctx.requestPath with
  | some p => Except.ok p
  | none => Except.error Err.contextError

/-- Python dict `.get(key, None)` on a string-valued dict, as used by
`ImageView.__init__` on `img_info`. -/
def dictGet (d : List (String × String)) (k : String) : Option String :=
  (d.find? (fun p => p.1 == k)).map Prod.snd

/-- The attributes an `ImageView` instance carries after `__init__`. -/
structure ImageViewData where
  text : Option String
  img_src : Option String
  img_alt : Option String
  img_width : Option String
  img_height : Option String
  img_class : Option String
  img_id : Option String
  endpoint : String
  url_for_args : List String
  url_for_kwargs : List (String × String)
deriving DecidableEq, Repr

/-- Constructor `ImageView.__init__(self, img_info, endpoint, *args, **kwargs)`:
`text` is set to `None` and the six image fields are read from `img_info`
with `.get(key, None)`. -/
def mkImageView (img_info : List (String × String)) (endpoint : String)
    (args : List String) (kwargs : List (String × String)) : ImageViewData :=
  { text := none
    img_src := dictGet img_info "src"
    img_alt := dictGet img_info "alt"
    img_width := dictGet img_info "width"
    img_height := dictGet img_info "height"
    img_class := dictGet img_info "class"
    img_id := dictGet img_info "id"
    endpoint := endpoint
    url_for_args := args
    url_for_kwargs := kwargs }

/-- The navigation-item hierarchy of `elements.py`. Each constructor holds
exactly the attributes the corresponding `__init__` stores. -/
inductive NavItem where
  /-- Item `Link(text, dest)`. -/
  | link (text dest : String) : NavItem
  /-- Item `RawTag(content, **attribs)`. -/
  | rawTag (content : String) (attribs : List (String × String)) : NavItem
  /-- Item `View(text, endpoint, *args, **kwargs)`. -/
  | view (text endpoint : String) (args : List String)
      (kwargs : List (String × String)) : NavItem
  /-- Item `ImageView(img_info, endpoint, *args, **kwargs)` after `__init__`. -/
  | imageView (d : ImageViewData) : NavItem
  /-- Item `Separator()`. -/
  | separator : NavItem
  /-- Item `Text(text)`. -/
  | text (t : String) : NavItem
  /-- Item `Subgroup(title, *items)`: stores `title` and `list(items)`. -/
  | subgroup (title : String) (items : List NavItem) : NavItem
  /-- Item `Navbar(title, *items)`: subclass of `Subgroup` adding nothing. -/
  | navbar (title : String) (items : List NavItem) : NavItem

/-- Method `get_url`: `Link.get_url` returns the stored `dest` verbatim;
`View.get_url` (inherited unchanged by `ImageView`) calls
`url_for(self.endpoint, *self.url_for_args, **self.url_for_kwargs)` at call
time and returns its result. Items without a `get_url` method raise
AttributeError. -/
def NavItem.get_url (ctx : Ctx) : NavItem → Except Err String
  | NavItem.link _ dest => Except.ok dest
  | NavItem.view _ endpoint args kwargs => ctx.url_for endpoint args kwargs
  | NavItem.imageView d => ctx.url_for d.endpoint d.url_for_args d.url_for_kwargs
  | _ => Except.error (Err.attributeError "get_url")

mutual

/-- Property `active`: class attribute `False` on the base class (so `Link`,
`RawTag`, `Separator`, `Text` report false); `View.active` (inherited by
`ImageView`) evaluates `request.path == self.get_url()`, left operand
first; `Subgroup.active` (inherited by `Navbar`) evaluates
`any(item.active for item in self.items)`. -/
def active (ctx : Ctx) : NavItem → Except Err Bool
  | NavItem.link _ _ => Except.ok false
  | NavItem.rawTag _ _ => Except.ok false
  | NavItem.view t endpoint args kwargs =>
    match ctx.path with
    | Except.error e => Except.error e
    | Except.ok p =>
      match NavItem.get_url ctx (NavItem.view t endpoint args kwargs) with
      | Except.error e => Except.error e
      | Except.ok u => Except.ok (p == u)
  | NavItem.imageView d =>
    match ctx.path with
    | Except.error e => Except.error e
    | Except.ok p =>
      match NavItem.get_url ctx (NavItem.imageView d) with
      | Except.error e => Except.error e
      | Except.ok u => Except.ok (p == u)
  | NavItem.separator => Except.ok false
  | NavItem.text _ => Except.ok false
  | NavItem.subgroup _ items => activeAny ctx items
  | NavItem.navbar _ items => activeAny ctx items

/-- Evaluation of `any(item.active for item in items)`: queries the children left to
right, stops at the first `True` (or at the first exception), and is
`False` on the empty sequence. -/
def activeAny (ctx : Ctx) : List NavItem → Except Err Bool
  | [] => Except.ok false
  | i :: rest =>
    match active ctx i with
    | Except.error e => Except.error e
    | Except.ok true => Except.ok true
    | Except.ok false => activeAny ctx rest

end

/-- Attribute `title`, present on `Subgroup` and `Navbar` instances only. -/
def NavItem.title : NavItem → Option String
  | NavItem.subgroup t _ => some t
  | NavItem.navbar t _ => some t
  | _ => none

/-- Attribute `items`: the child sequence a `Subgroup` or `Navbar` stores
and exposes (to renderers among others); other items have none. -/
def NavItem.items : NavItem → List NavItem
  | NavItem.subgroup _ its => its
  | NavItem.navbar _ its => its
  | _ => []

/-- Constructor `Subgroup(title, *items)`: `__init__` stores `title` and
`list(items)`, the packed argument tuple turned into a list, in order. -/
def mkSubgroup (title : String) (items : List NavItem) : NavItem :=
  NavItem.subgroup title items

/-- Constructor `Navbar(title, *items)`: inherits `Subgroup.__init__` unchanged. -/
def mkNavbar (title : String) (items : List NavItem) : NavItem :=
  NavItem.navbar title items

/-- Mutation `obj.items.append(x)` on a container item: the new element goes to the
end of the stored sequence; other items are unchanged by it. -/
def appendItem (x : NavItem) : NavItem → NavItem
  | NavItem.subgroup t its => NavItem.subgroup t (its ++ [x])
  | NavItem.navbar t its => NavItem.navbar t (its ++ [x])
  | i => i

/-! ### `ImageView.get_img_tag`

The module `elements.py` imports exactly `url_for`, `request`,
`current_app`, `Markup` and `get_renderer`, and defines its classes; the
name `tags` used by `get_img_tag` is bound nowhere, so evaluating the
expression `tags.img(...)` raises `NameError` before any argument is
evaluated. Were `tags` bound, the argument `self.img_sr` would raise
`AttributeError` (the stored attribute is spelled `img_src`), and only
`src`/`alt`/`class`/`id` are passed to the tag — never width/height. -/

/-- The global names bound in `elements.py`: its imports and its class
statements. -/
def moduleGlobals : List String :=
  ["url_for", "request", "current_app", "Markup", "get_renderer",
   "NavigationItem", "Link", "RawTag", "View", "ImageView", "Separator",
   "Subgroup", "Text", "Navbar"]

/-- Python name resolution at module level: a name not bound in the module
(or builtins relevant here) raises `NameError`. -/
def resolveGlobal (n : String) : Except Err Unit :=
  if n ∈ moduleGlobals then Except.ok () else Except.error (Err.nameError n)

/-- Python attribute lookup on an `ImageView` instance: the attributes set
in `__init__`, anything else raises `AttributeError`. -/
def ImageViewData.getattr (d : ImageViewData) (n : String) :
    Except Err (Option String) :=
  if n = "text" then Except.ok d.text
  else if n = "img_src" then Except.ok d.img_src
  else if n = "img_alt" then Except.ok d.img_alt
  else if n = "img_width" then Except.ok d.img_width
  else if n = "img_height" then Except.ok d.img_height
  else if n = "img_class" then Except.ok d.img_class
  else if n = "img_id" then Except.ok d.img_id
  else Except.error (Err.attributeError n)

/-- The value `tags.img(...)` would build: an img tag with the four
attributes the call passes (absent optional fields omitted). -/
structure ImgTag where
  src : Option String
  alt : Option String
  cls : Option String
  id : Option String
deriving DecidableEq, Repr

/-- Method `ImageView.get_img_tag`:
`img = tags.img(src=self.img_sr, alt=self.img_alt, _class=self.img_class,
_id=self.img_id); return img`. Evaluation order: the callee `tags.img`
first (resolving the global `tags`), then the keyword arguments left to
right, each an attribute lookup on `self`. -/
def get_img_tag (d : ImageViewData) : Except Err ImgTag :=
  match resolveGlobal "tags" with
  | Except.error e => Except.error e
  | Except.ok _ =>
    match d.getattr "img_sr" with
    | Except.error e => Except.error e
    | Except.ok src =>
      match d.getattr "img_alt" with
      | Except.error e => Except.error e
      | Except.ok alt =>
        match d.getattr "img_class" with
        | Except.error e => Except.error e
        | Except.ok cls =>
          match d.getattr "img_id" with
          | Except.error e => Except.error e
          | Except.ok id => Except.ok { src := src, alt := alt, cls := cls, id := id }

/-! ### Renderer dispatch

`NavigationItem.render` reads
`Markup(get_renderer(current_app, renderer)(**kwargs).visit(self))`.
`get_renderer` lives in `flask_nav/__init__.py`, which is not part of the
sources here; it is modelled from the spec below. -/

/-- A renderer instance: its `visit` operation produces markup for an item. -/
structure Renderer where
  visit : NavItem → String

/-- A renderer factory: constructed with the keyword options forwarded from
`render(**kwargs)`. -/
abbrev RendererFactory : Type := List (String × String) → Renderer

/-- The application's renderer registry and configured default name. -/
structure RenderCtx where
  /-- Registered renderers: name to factory, as registered at setup time. -/
  renderers : List (String × RendererFactory)
  /-- The application's configured default renderer name. -/
  defaultName : String

/-- Modelled from the spec: `get_renderer(app, name-or-none)` — missing
from the sources (`flask_nav/__init__.py`) — resolves a renderer name
against the process-wide registry of the current application, `none`
meaning the application's configured default name; resolving an
unregistered name fails with a configuration (lookup) error rather than
silently falling back. -/
def get_renderer (rctx : RenderCtx) (name : Option String) :
    Except Err RendererFactory :=
  let n := name.getD rctx.defaultName
  match rctx.renderers.find? (fun p => p.1 == n) with
  | some p => Except.ok p.2
  | none => Except.error (Err.configError n)

/-- A markupsafe `Markup` string: flagged as safe, not re-escaped. -/
structure Markup where
  string : String
deriving DecidableEq, Repr

/-- Method `NavigationItem.render(self, renderer=None, **kwargs)`:
`Markup(get_renderer(current_app, renderer)(**kwargs).visit(self))`. An
error from the renderer lookup propagates before any markup is built. -/
def NavItem.render (rctx : RenderCtx) (item : NavItem)
    (renderer : Option String) (kwargs : List (String × String)) :
    Except Err Markup :=
  match get_renderer rctx renderer with
  | Except.error e => Except.error e
  | Except.ok factory => Except.ok (Markup.mk ((factory kwargs).visit item))

/-! ### A heap of Python lists

`Subgroup.__init__` runs `self.items = list(items)`: it allocates a fresh
list object from the packed arguments. To talk about aliasing — mutating
the subgroup's list versus mutating a list the caller owns — lists live in
a small heap, addressed by allocation index. -/

/-- A heap of Python list objects holding navigation items. -/
structure Heap where
  cells : List (List NavItem)

/-- A reference to a list object in the heap. -/
abbrev ListRef : Type := Nat

/-- Allocate a fresh list object with the given contents (`list(items)`).
The returned reference is new: it equals the previous number of cells. -/
def Heap.alloc (h : Heap) (xs : List NavItem) : Heap × ListRef :=
  (Heap.mk (h.cells ++ [xs]), h.cells.length)

/-- Read the contents of a list object. -/
def Heap.read (h : Heap) (r : ListRef) : List NavItem :=
  (h.cells.getD r [])

/-- Mutation `lst.append(x)` on the list object at `r`. -/
def Heap.appendAt (h : Heap) (r : ListRef) (x : NavItem) : Heap :=
  Heap.mk (h.cells.set r (h.read r ++ [x]))

/-- A `Subgroup` instance whose `items` attribute is a heap reference. -/
structure SubgroupObj where
  title : String
  itemsRef : ListRef

/-- Constructor `Subgroup.__init__(self, title, *items)` against the heap: the values
of the caller's argument sequence are copied into a freshly allocated list
(`self.items = list(items)`). -/
def subgroupInit (h : Heap) (title : String) (items : List NavItem) :
    Heap × SubgroupObj :=
  let (h', r) := h.alloc items
  (h', SubgroupObj.mk title r)

/-! ### Helper lemmas -/

/-- Boolean value of a child's `active` when it evaluates without an
exception (arbitrary on exception; only used under a no-exception
hypothesis). -/
def okTrue : Except Err Bool → Bool
  | Except.ok b => b
  | Except.error _ => false

theorem activeAny_eq_any (ctx : Ctx) (l : List NavItem)
    (h : ∀ i ∈ l, ∃ b, active ctx i = Except.ok b) :
    activeAny ctx l = Except.ok (l.any fun i => okTrue (active ctx i)) := by
  induction l with
  | nil => rfl
  | cons i rest ih =>
    obtain ⟨b, hb⟩ := h i (List.mem_cons_self i rest)
    have hrest := fun j hj => h j (List.mem_cons_of_mem i hj)
    cases b with
    | true => simp [activeAny, hb, okTrue]
    | false => simp [activeAny, hb, okTrue, ih hrest]

theorem any_congr_perm {α : Type} (p : α → Bool) {l l' : List α}
    (hp : l.Perm l') : l.any p = l'.any p := by
  induction hp with
  | nil => rfl
  | cons x _ ih => simp [List.any_cons, ih]
  | swap x y l => simp [List.any_cons, Bool.or_left_comm]
  | trans _ _ ih1 ih2 => exact ih1.trans ih2

theorem activeAny_append_true (ctx : Ctx) (pre post : List NavItem)
    (m : NavItem) (hpre : ∀ i ∈ pre, active ctx i = Except.ok false)
    (hm : active ctx m = Except.ok true) :
    activeAny ctx (pre ++ m :: post) = Except.ok true := by
  induction pre with
  | nil => simp [activeAny, hm]
  | cons i rest ih =>
    have hi := hpre i (List.mem_cons_self i rest)
    have hr := fun j hj => hpre j (List.mem_cons_of_mem i hj)
    simp [activeAny, hi, ih hr]

theorem getD_append_lt {α : Type} (l l' : List α) (i : Nat) (d : α)
    (hi : i < l.length) : (l ++ l').getD i d = l.getD i d := by
  induction l generalizing i with
  | nil => exact absurd hi (by simp)
  | cons x xs ih =>
    cases i with
    | zero => rfl
    | succ n => exact ih n (by simpa using hi)

theorem getD_concat_self {α : Type} (l : List α) (x d : α) :
    (l ++ [x]).getD l.length d = x := by
  induction l with
  | nil => rfl
  | cons y ys ih => simp only [List.cons_append, List.length_cons]; exact ih

theorem getD_set_ne {α : Type} (l : List α) (i j : Nat) (v d : α)
    (hij : i ≠ j) : (l.set i v).getD j d = l.getD j d := by
  induction l generalizing i j with
  | nil => rfl
  | cons x xs ih =>
    cases i with
    | zero =>
      cases j with
      | zero => exact absurd rfl hij
      | succ n => rfl
    | succ m =>
      cases j with
      | zero => rfl
      | succ n => exact ih m n (fun hc => hij (by simp [hc]))

/-! ### Concrete contexts used by the witnesses -/

/-- A context with a current request at path `/x` and a single route
`home` resolving to `/x`; any other endpoint raises a routing error. -/
def ctxHome : Ctx :=
  { url_for := fun e _ _ =>
      if e = "home" then Except.ok "/x"
      else Except.error (Err.routingError "unknown endpoint")
    requestPath := some "/x" }

/-- The same routes as `ctxHome`, but outside any request. -/
def ctxNoRequest : Ctx :=
  { url_for := fun e _ _ =>
      if e = "home" then Except.ok "/x"
      else Except.error (Err.routingError "unknown endpoint")
    requestPath := none }

/-- A renderer registry holding one renderer named `simple` that renders
every item as the fixed string `nav`, which is also the default. -/
def rctxSimple : RenderCtx :=
  { renderers := [("simple", fun _ => Renderer.mk (fun _ => "nav"))]
    defaultName := "simple" }

/-- An empty renderer registry with default name `simple`. -/
def rctxEmpty : RenderCtx :=
  { renderers := []
    defaultName := "simple" }

/-- A one-cell heap: the caller owns the list at reference 0. -/
def heap0 : Heap :=
  Heap.mk [[NavItem.link "a" "/a", NavItem.text "lbl"]]

/-! ### The claims -/

/-- C1: for every `Subgroup` (and `Navbar`) whose children each evaluate
`active` to some boolean, `active` equals the logical OR (`any`) of the
children's current `active` values; an empty `Subgroup` has
`active = false`, and the result is invariant under permutation of the
children. -/
theorem subgroup_active_is_any_of_children (ctx : Ctx) (t : String)
    (items items' : List NavItem)
    (h : ∀ i ∈ items, ∃ b, active ctx i = Except.ok b)
    (hp : items.Perm items') :
    active ctx (mkSubgroup t items) =
        Except.ok (items.any fun i => okTrue (active ctx i))
    ∧ active ctx (mkNavbar t items) =
        Except.ok (items.any fun i => okTrue (active ctx i))
    ∧ active ctx (mkSubgroup t []) = Except.ok false
    ∧ active ctx (mkSubgroup t items) = active ctx (mkSubgroup t items') := by
  have h' : ∀ i ∈ items', ∃ b, active ctx i = Except.ok b :=
    fun i hi => h i (hp.mem_iff.mpr hi)
  have e1 : active ctx (mkSubgroup t items) = activeAny ctx items := rfl
  have e2 : active ctx (mkSubgroup t items') = activeAny ctx items' := rfl
  refine ⟨activeAny_eq_any ctx items h, activeAny_eq_any ctx items h, rfl, ?_⟩
  rw [e1, e2, activeAny_eq_any ctx items h, activeAny_eq_any ctx items' h',
    any_congr_perm _ hp]

/-- Witness for C1 at a concrete two-child subgroup and its swap. -/
theorem subgroup_active_is_any_of_children_witness :
    active ctxHome
        (mkSubgroup "g" [NavItem.link "a" "/a", NavItem.view "h" "home" [] []]) =
      Except.ok true := by
  have h := subgroup_active_is_any_of_children ctxHome "g"
      [NavItem.link "a" "/a", NavItem.view "h" "home" [] []]
      [NavItem.view "h" "home" [] [], NavItem.link "a" "/a"]
      (by
        intro i hi
        simp only [List.mem_cons, List.not_mem_nil, or_false] at hi
        rcases hi with rfl | rfl
        · exact ⟨false, rfl⟩
        · exact ⟨true, rfl⟩)
      (List.Perm.swap (NavItem.view "h" "home" [] []) (NavItem.link "a" "/a") [])
  exact h.1.trans (by rfl)

/-- C2: each access of `View.active` recomputes
`request.path == get_url()` from the current context: with a current
request at path `p` the result is the string equality of `p` with what the
routing facility returns at that moment (its errors propagate), and with
no current request it raises a context error rather than returning
false. -/
theorem view_active_recomputed (ctx : Ctx) (t e : String) (a : List String)
    (kw : List (String × String)) :
    (∀ p, ctx.requestPath = some p →
      active ctx (NavItem.view t e a kw) =
        (ctx.url_for e a kw).map (fun u => p == u))
    ∧ (ctx.requestPath = none →
      active ctx (NavItem.view t e a kw) = Except.error Err.contextError) := by
  constructor
  · intro p hp
    have hpath : ctx.path = Except.ok p := by simp [Ctx.path, hp]
    cases hu : ctx.url_for e a kw with
    | error err => simp [active, hpath, NavItem.get_url, hu, Except.map]
    | ok u => simp [active, hpath, NavItem.get_url, hu, Except.map]
  · intro hp
    have hpath : ctx.path = Except.error Err.contextError := by
      simp [Ctx.path, hp]
    simp [active, hpath]

/-- Witness for C2: with a current request at `/x` and `home` resolving to
`/x`, the view for `home` is active; outside a request the access raises a
context error. -/
theorem view_active_recomputed_witness :
    active ctxHome (NavItem.view "Home" "home" [] []) = Except.ok true
    ∧ active ctxNoRequest (NavItem.view "Home" "home" [] []) =
        Except.error Err.contextError := by
  constructor
  · exact ((view_active_recomputed ctxHome "Home" "home" [] []).1 "/x"
      rfl).trans (by rfl)
  · exact (view_active_recomputed ctxNoRequest "Home" "home" [] []).2 rfl

/-- C3 (code bug): the scenario `ImageView({"src": "/x.png", "alt": "X"},
"home")` does set `text` to `None` and stores the two image fields, but
`get_img_tag()` raises a `NameError` — the global `tags` its body
evaluates first is bound nowhere in the module — instead of returning an
image tag; were `tags` bound, reading the misspelled attribute
`self.img_sr` would raise an `AttributeError` next. -/
theorem imageview_get_img_tag_raises :
    (mkImageView [("src", "/x.png"), ("alt", "X")] "home" [] []).text = none
    ∧ get_img_tag (mkImageView [("src", "/x.png"), ("alt", "X")] "home" [] []) =
        Except.error (Err.nameError "tags")
    ∧ (mkImageView [("src", "/x.png"), ("alt", "X")] "home" [] []).img_src =
        some "/x.png"
    ∧ (mkImageView [("src", "/x.png"), ("alt", "X")] "home" [] []).img_alt =
        some "X"
    ∧ (mkImageView [("src", "/x.png"), ("alt", "X")] "home" [] []).getattr
        "img_sr" = Except.error (Err.attributeError "img_sr") :=
  ⟨rfl, rfl, rfl, rfl, rfl⟩

/-- C4: `Link.get_url()` returns the stored destination verbatim, for any
text and destination, independently of the text and of any context; no
error is possible. -/
theorem link_get_url_returns_dest (ctx ctx' : Ctx) (text text' dest : String) :
    NavItem.get_url ctx (NavItem.link text dest) = Except.ok dest
    ∧ NavItem.get_url ctx (NavItem.link text dest) =
        NavItem.get_url ctx' (NavItem.link text' dest) :=
  ⟨rfl, rfl⟩

/-- C5: every `View.get_url()` call hands exactly
`(endpoint, *url_for_args, **url_for_kwargs)` to the routing facility of
the current context and returns its result unchanged — the value reflects
the context of each call (nothing is cached), successful resolutions are
returned as-is, and any routing error propagates unmodified. -/
theorem view_get_url_calls_url_for (ctx : Ctx) (t e : String)
    (a : List String) (kw : List (String × String)) :
    NavItem.get_url ctx (NavItem.view t e a kw) = ctx.url_for e a kw
    ∧ (∀ u, ctx.url_for e a kw = Except.ok u →
        NavItem.get_url ctx (NavItem.view t e a kw) = Except.ok u)
    ∧ (∀ err, ctx.url_for e a kw = Except.error err →
        NavItem.get_url ctx (NavItem.view t e a kw) = Except.error err) :=
  ⟨rfl, fun _ hu => hu, fun _ herr => herr⟩

/-- Witness for C5: a registered endpoint resolves, an unknown endpoint
propagates the routing error. -/
theorem view_get_url_calls_url_for_witness :
    NavItem.get_url ctxHome (NavItem.view "Home" "home" [] []) = Except.ok "/x"
    ∧ NavItem.get_url ctxHome (NavItem.view "Bad" "missing" [] []) =
        Except.error (Err.routingError "unknown endpoint") := by
  constructor
  · exact (view_get_url_calls_url_for ctxHome "Home" "home" [] []).2.1 "/x" rfl
  · exact (view_get_url_calls_url_for ctxHome "Bad" "missing" [] []).2.2
      (Err.routingError "unknown endpoint") rfl

/-- C6: a `Subgroup` (or `Navbar`) constructed with items `[a, b, c]`
stores and exposes exactly that sequence in that order, and an appended
item goes to the end, preserving insertion order as seen by any reader of
`items` (renderers included). -/
theorem subgroup_items_order_preserved (t : String) (a b c x : NavItem)
    (l : List NavItem) :
    (mkSubgroup t [a, b, c]).items = [a, b, c]
    ∧ (mkSubgroup t l).items = l
    ∧ (appendItem x (mkSubgroup t l)).items = l ++ [x]
    ∧ (mkNavbar t [a, b, c]).items = [a, b, c]
    ∧ (appendItem x (mkNavbar t l)).items = l ++ [x] :=
  ⟨rfl, rfl, rfl, rfl, rfl⟩

/-- C7: rendering any item with a renderer name that is neither registered
nor the configured default fails synchronously with a configuration
(lookup) error, and no markup value is produced; there is no silent
fallback. -/
theorem render_unregistered_renderer_errors (rctx : RenderCtx)
    (item : NavItem) (name : String) (kwargs : List (String × String))
    (h : rctx.renderers.find? (fun p => p.1 == name) = none)
    (_hd : name ≠ rctx.defaultName) :
    NavItem.render rctx item (some name) kwargs =
      Except.error (Err.configError name)
    ∧ ∀ m : Markup,
        NavItem.render rctx item (some name) kwargs ≠ Except.ok m := by
  have hr : get_renderer rctx (some name) =
      Except.error (Err.configError name) := by
    simp [get_renderer, h]
  constructor
  · simp [NavItem.render, hr]
  · intro m
    simp [NavItem.render, hr]

/-- Witness for C7: with only `simple` registered (also the default),
rendering with name `bogus` raises the configuration error. -/
theorem render_unregistered_renderer_errors_witness :
    NavItem.render rctxSimple (NavItem.text "lbl") (some "bogus") [] =
      Except.error (Err.configError "bogus") :=
  (render_unregistered_renderer_errors rctxSimple (NavItem.text "lbl")
    "bogus" [] rfl (by decide)).1

/-- C8: `Navbar` behaves exactly as `Subgroup`: same `title`, same
`items`, same `active`, and `render` runs the identical dispatch — the two
renders agree whenever the resolved renderer's `visit` does not
distinguish the two items, and always agree on lookup failure; only the
constructor tag differs, which is what lets callers recognize the root. -/
theorem navbar_equiv_subgroup (ctx : Ctx) (rctx : RenderCtx) (t : String)
    (items : List NavItem) (name : Option String)
    (kwargs : List (String × String)) :
    (mkNavbar t items).title = (mkSubgroup t items).title
    ∧ (mkNavbar t items).items = (mkSubgroup t items).items
    ∧ active ctx (mkNavbar t items) = active ctx (mkSubgroup t items)
    ∧ (∀ err, get_renderer rctx name = Except.error err →
        NavItem.render rctx (mkNavbar t items) name kwargs =
          NavItem.render rctx (mkSubgroup t items) name kwargs)
    ∧ (∀ fac, get_renderer rctx name = Except.ok fac →
        (fac kwargs).visit (mkNavbar t items) =
          (fac kwargs).visit (mkSubgroup t items) →
        NavItem.render rctx (mkNavbar t items) name kwargs =
          NavItem.render rctx (mkSubgroup t items) name kwargs) := by
  refine ⟨rfl, rfl, rfl, ?_, ?_⟩
  · intro err herr
    simp [NavItem.render, herr]
  · intro fac hfac hvisit
    simp [NavItem.render, hfac, hvisit]

/-- Witness for C8: a renderer blind to the root tag renders `Navbar` and
`Subgroup` identically, and with an empty registry both fail alike. -/
theorem navbar_equiv_subgroup_witness :
    NavItem.render rctxSimple (mkNavbar "Main" []) (some "simple") [] =
      NavItem.render rctxSimple (mkSubgroup "Main" []) (some "simple") []
    ∧ NavItem.render rctxEmpty (mkNavbar "Main" []) (some "simple") [] =
        NavItem.render rctxEmpty (mkSubgroup "Main" []) (some "simple") [] := by
  constructor
  · exact (navbar_equiv_subgroup ctxHome rctxSimple "Main" [] (some "simple")
      []).2.2.2.2 (fun _ => Renderer.mk (fun _ => "nav")) rfl rfl
  · exact (navbar_equiv_subgroup ctxHome rctxEmpty "Main" [] (some "simple")
      []).2.2.2.1 (Err.configError "simple") rfl

/-- C9: `Subgroup.__init__` copies the given item values into a freshly
allocated list: construction leaves the caller's list unchanged, the new
object's list holds the same values, appending to the subgroup's list
leaves the caller's list untouched, and appending to the caller's list
leaves the subgroup's list untouched. -/
theorem subgroup_init_copies_items (h : Heap) (t : String) (rc : ListRef)
    (hrc : rc < h.cells.length) (x y : NavItem) :
    ((subgroupInit h t (h.read rc)).1.read rc = h.read rc)
    ∧ ((subgroupInit h t (h.read rc)).1.read
        (subgroupInit h t (h.read rc)).2.itemsRef = h.read rc)
    ∧ (((subgroupInit h t (h.read rc)).1.appendAt
        (subgroupInit h t (h.read rc)).2.itemsRef x).read rc = h.read rc)
    ∧ (((subgroupInit h t (h.read rc)).1.appendAt rc y).read
        (subgroupInit h t (h.read rc)).2.itemsRef = h.read rc) := by
  have hne : rc ≠ h.cells.length := Nat.ne_of_lt hrc
  have c1 : ((subgroupInit h t (h.read rc)).1.read rc = h.read rc) :=
    getD_append_lt h.cells [h.read rc] rc [] hrc
  have c2 : ((subgroupInit h t (h.read rc)).1.read
      (subgroupInit h t (h.read rc)).2.itemsRef = h.read rc) :=
    getD_concat_self h.cells (h.read rc) []
  refine ⟨c1, c2, ?_, ?_⟩
  · exact (getD_set_ne (h.cells ++ [h.read rc]) h.cells.length rc _ []
      (Ne.symm hne)).trans c1
  · exact (getD_set_ne (h.cells ++ [h.read rc]) rc h.cells.length _ []
      hne).trans c2

/-- Witness for C9 on a one-cell heap: appending to the new subgroup's
list leaves the caller's list at reference 0 unchanged, and appending to
the caller's list leaves the subgroup's list unchanged. -/
theorem subgroup_init_copies_items_witness :
    ((subgroupInit heap0 "g" (heap0.read 0)).1.appendAt
        (subgroupInit heap0 "g" (heap0.read 0)).2.itemsRef
        NavItem.separator).read 0 = heap0.read 0
    ∧ ((subgroupInit heap0 "g" (heap0.read 0)).1.appendAt 0
        NavItem.separator).read
        (subgroupInit heap0 "g" (heap0.read 0)).2.itemsRef = heap0.read 0 := by
  have h := subgroup_init_copies_items heap0 "g" 0 (by decide)
    NavItem.separator NavItem.separator
  exact ⟨h.2.2.1, h.2.2.2⟩

/-- C10: `Subgroup.active` (and `Navbar.active`) queries the children left
to right and short-circuits at the first active child: when every child
before some position is inactive and the child there is active, the result
is true whatever comes after — in particular an exception a later child's
`active` would raise is never raised. -/
theorem subgroup_active_short_circuits (ctx : Ctx) (t : String)
    (pre post : List NavItem) (m : NavItem)
    (hpre : ∀ i ∈ pre, active ctx i = Except.ok false)
    (hm : active ctx m = Except.ok true) :
    active ctx (mkSubgroup t (pre ++ m :: post)) = Except.ok true
    ∧ active ctx (mkNavbar t (pre ++ m :: post)) = Except.ok true :=
  ⟨activeAny_append_true ctx pre post m hpre hm,
   activeAny_append_true ctx pre post m hpre hm⟩

/-- Witness for C10: the second child is active and the third child's
`active` would raise a routing error, yet the subgroup's `active` returns
true. -/
theorem subgroup_active_short_circuits_witness :
    active ctxHome (mkSubgroup "g"
        [NavItem.link "a" "/a", NavItem.view "h" "home" [] [],
         NavItem.view "bad" "missing" [] []]) = Except.ok true
    ∧ active ctxHome (NavItem.view "bad" "missing" [] []) =
        Except.error (Err.routingError "unknown endpoint") := by
  refine ⟨?_, rfl⟩
  have h := subgroup_active_short_circuits ctxHome "g"
      [NavItem.link "a" "/a"] [NavItem.view "bad" "missing" [] []]
      (NavItem.view "h" "home" [] [])
      (by
        intro i hi
        rw [List.mem_singleton] at hi
        subst hi
        rfl)
      rfl
  exact h.1

end FlaskNav
